import Mathlib

/-!
Verification of the subscription/billing core of the sp-engineer backend.

This file gives a shallow embedding of the subscription data model and of the
operations that mutate it: the entitlement check
(`app/dependencies/subscription_check.py`), the activation paths
(`app/routers/webhook.py`, `app/routers/subscription.py`), the renewal engine
(`app/utils/renewal_service.py`) and the cancellation/reactivation routes
(`app/routers/subscription_cancellation.py`).

Conventions of the embedding:
- `datetime` values are integers (epoch seconds); `timedelta(days = n)` is
  `n * 86400`; `timedelta.days` of a difference is floor division by 86400.
- The database is a `List UserSubscription` (plus append-only lists for
  `PaymentHistory` and `SubscriptionCancellation` rows).  An ORM query
  `.filter(...).first()` is `List.find?`, and the subsequent in-place mutation
  of the returned row is `updateFirst`, which rewrites exactly the first row
  matching the filter.
- A route that raises before mutating is modelled as returning the database
  unchanged together with an error value.
- The billing-cycle strings of the source are represented by the
  `BillingCycle` enum; the source compares the string against "yearly" and
  defaults to monthly, which is the same case split.
-/

namespace SPEngineer

/-- Embedding of `BillingCycle` (`app/models/subscription.py`). -/
inductive BillingCycle where
  | monthly
  | yearly
  deriving DecidableEq, Repr

/-- The `.value` string of a `BillingCycle` member. -/
def BillingCycle.value : BillingCycle → String
  | .monthly => "monthly"
  | .yearly => "yearly"

/-- Embedding of `CancellationReason` (`app/models/subscription.py`). -/
inductive CancellationReason where
  | user_request
  | payment_failed
  | admin_action
  | other
  deriving DecidableEq, Repr

/-- Embedding of the `SubscriptionPlan` model row (`app/models/subscription.py`). -/
structure SubscriptionPlan where
  id : Nat
  name : String
  monthly_price : Option Int
  yearly_price : Option Int
  query_limit : Int
  document_upload_limit : Int
  ninja_mode : Bool
  meme_generator : Bool
  deriving DecidableEq, Repr

/-- Embedding of the `UserSubscription` model row (`app/models/subscription.py`).
Dates are epoch seconds. -/
structure UserSubscription where
  user_id : Nat
  plan_id : Nat
  start_date : Int
  expiry_date : Int
  billing_cycle : BillingCycle
  active : Bool
  auto_renew : Bool
  is_cancelled : Bool := false
  cancelled_at : Option Int := none
  cancellation_reason : Option CancellationReason := none
  cancellation_note : Option String := none
  cancelled_by_user_id : Option Nat := none
  access_ends_at : Option Int := none
  last_payment_date : Option Int
  last_payment_intent_id : Option String
  payment_method_id : Option String
  next_renewal_date : Option Int
  renewal_attempts : Int
  last_renewal_attempt : Option Int := none
  renewal_failed : Bool
  failure_reason : Option String := none
  queries_used : Int
  documents_uploaded : Int
  deriving DecidableEq, Repr

/-- Embedding of the `PaymentHistory` model row (`app/models/subscription.py`). -/
structure PaymentHistory where
  user_id : Nat
  payment_intent_id : Option String
  amount : Int
  currency : String := "usd"
  status : String
  billing_cycle : BillingCycle
  payment_date : Option Int := none
  is_renewal : Bool
  meta_info : Option String := none
  deriving DecidableEq, Repr

/-- Embedding of the `SubscriptionCancellation` audit row
(`app/models/subscription.py`). -/
structure SubscriptionCancellation where
  user_id : Nat
  cancelled_at : Int
  reason : CancellationReason
  user_feedback : Option String
  plan_name : String
  billing_cycle : String
  remaining_days : Int
  access_until : Int
  prorated_refund_amount : Int
  ip_address : Option String := none
  user_agent : Option String := none
  deriving DecidableEq, Repr

/-- The `users` columns that the subscription logic reads
(`app/models/user.py`). -/
structure UserRow where
  id : Nat
  auto_renew_enabled : Bool
  stripe_customer_id : Option String
  default_payment_method_id : Option String := none
  email_notifications : Bool := true
  deriving DecidableEq, Repr

/-- The filter `user_id == uid, active == True` used by every route that
looks up the current subscription. -/
def isActiveOf (uid : Nat) (s : UserSubscription) : Bool :=
  s.user_id == uid && s.active

/-- ORM-style in-place mutation: the row returned by `.first()` is the first
row matching the filter, and assigning to its attributes rewrites exactly that
row.  `updateFirst p f l` applies `f` to the first element of `l` satisfying
`p` and leaves everything else unchanged. -/
def updateFirst {α : Type} (p : α → Bool) (f : α → α) : List α → List α
  | [] => []
  | x :: xs => if p x then f x :: xs else x :: updateFirst p f xs

/-- Error outcomes of `check_subscription_usage`
(`app/dependencies/subscription_check.py`); each constructor is one of the
`HTTPException(403, ...)` raises, with the counts carried by the
limit-exceeded details. -/
inductive CheckError where
  | noActiveSubscription
  | subscriptionExpired
  | queryLimitExceeded (used limit : Int)
  | documentLimitExceeded (used limit : Int)
  deriving DecidableEq, Repr

/-- Embedding of `check_subscription_usage`
(`app/dependencies/subscription_check.py`).  `getPlan` is the ORM
relationship `subscription.plan`.  Returns the (possibly mutated) database
together with either the subscription or the raised error.  The source reads:
find the first active subscription of the user (403 if none); if
`subscription.expiry_date < datetime.utcnow()` set `active = False`, commit
and raise "expired"; then raise "limit exceeded" if `check_query` and
`queries_used >= plan.query_limit`, or if `check_document` and
`documents_uploaded >= plan.document_upload_limit`. -/
def check_subscription_usage (getPlan : Nat → SubscriptionPlan)
    (db : List UserSubscription) (uid : Nat) (now : Int)
    (check_query check_document : Bool) :
    List UserSubscription × Except CheckError UserSubscription :=
  match db.find? (isActiveOf uid) with
  | none => (db, Except.error .noActiveSubscription)
  | some s =>
    if s.expiry_date < now then
      (updateFirst (isActiveOf uid) (fun r => { r with active := false }) db,
       Except.error .subscriptionExpired)
    else
      (db,
        if check_query && decide ((getPlan s.plan_id).query_limit ≤ s.queries_used) then
          Except.error (.queryLimitExceeded s.queries_used (getPlan s.plan_id).query_limit)
        else if check_document && decide ((getPlan s.plan_id).document_upload_limit ≤ s.documents_uploaded) then
          Except.error (.documentLimitExceeded s.documents_uploaded (getPlan s.plan_id).document_upload_limit)
        else Except.ok s)

/-- The deactivate-all-prior-rows loop shared (textually duplicated) by every
activation path: `for sub in existing_subscriptions: sub.active = False`
applied to all rows matching `user_id == uid, active == True`. -/
def deactivate_for (uid : Nat) (db : List UserSubscription) : List UserSubscription :=
  db.map fun s => if isActiveOf uid s then { s with active := false } else s

/-- Embedding of `activate_user_subscription` (`app/routers/webhook.py`):
deactivate all active rows of the user, compute expiry as now + 365 days for
"yearly" and now + 30 days otherwise, insert a fresh row with counters reset,
and append a `PaymentHistory` row with `status = "succeeded"`,
`is_renewal = False`.  `auto_renew_enabled` is `user.auto_renew_enabled`. -/
def activate_user_subscription (db : List UserSubscription)
    (hist : List PaymentHistory) (uid : Nat) (plan : SubscriptionPlan)
    (billing_cycle : BillingCycle) (payment_intent_id payment_method_id : Option String)
    (amount : Int) (auto_renew_enabled : Bool) (now : Int) :
    List UserSubscription × List PaymentHistory :=
  let expiry : Int := if billing_cycle = .yearly then now + 365 * 86400 else now + 30 * 86400
  let newSub : UserSubscription :=
    { user_id := uid, plan_id := plan.id, active := true,
      billing_cycle := billing_cycle, start_date := now, expiry_date := expiry,
      next_renewal_date := some expiry, auto_renew := auto_renew_enabled,
      queries_used := 0, documents_uploaded := 0, last_payment_date := some now,
      last_payment_intent_id := payment_intent_id,
      payment_method_id := payment_method_id, renewal_attempts := 0,
      renewal_failed := false }
  let payment_record : PaymentHistory :=
    { user_id := uid, payment_intent_id := payment_intent_id, amount := amount,
      status := "succeeded", billing_cycle := billing_cycle, is_renewal := false }
  (deactivate_for uid db ++ [newSub], hist ++ [payment_record])

/-- Embedding of the body of `activate_free_plan`
(`app/routers/subscription.py`) after the user is found: deactivate all
active rows, insert a free (plan id 1) monthly row expiring in 30 days with
`auto_renew = False` and no payment linkage.  No payment-history row is
written. -/
def activate_free_plan (db : List UserSubscription) (uid : Nat) (now : Int) :
    List UserSubscription :=
  let newSub : UserSubscription :=
    { user_id := uid, plan_id := 1, active := true, billing_cycle := .monthly,
      start_date := now, expiry_date := now + 30 * 86400,
      next_renewal_date := some (now + 30 * 86400), auto_renew := false,
      queries_used := 0, documents_uploaded := 0, last_payment_date := none,
      last_payment_intent_id := none, payment_method_id := none,
      renewal_attempts := 0, renewal_failed := false }
  deactivate_for uid db ++ [newSub]

/-- Embedding of the mutation core of `update_subscription_from_payment`
(`app/routers/subscription.py`), invoked from the payment-status checkout
confirmation: deactivate all active rows and insert the new row with
`auto_renew = True`, `payment_method_id = None` and the payment intent taken
from the checkout session. -/
def update_subscription_from_payment (db : List UserSubscription)
    (uid plan_id : Nat) (billing_cycle : BillingCycle)
    (payment_intent_id : Option String) (now : Int) : List UserSubscription :=
  let expiry : Int := if billing_cycle = .yearly then now + 365 * 86400 else now + 30 * 86400
  let newSub : UserSubscription :=
    { user_id := uid, plan_id := plan_id, active := true,
      billing_cycle := billing_cycle, start_date := now, expiry_date := expiry,
      next_renewal_date := some expiry, auto_renew := true, queries_used := 0,
      documents_uploaded := 0, last_payment_date := some now,
      last_payment_intent_id := payment_intent_id, payment_method_id := none,
      renewal_attempts := 0, renewal_failed := false }
  deactivate_for uid db ++ [newSub]

/-- Embedding of the mutation core of `manual_activate_subscription`
(`app/routers/subscription.py`): deactivate all active rows and insert the
new row with `auto_renew = False` and
`last_payment_intent_id = "manual_activation"`. -/
def manual_activate_subscription (db : List UserSubscription)
    (uid plan_id : Nat) (billing_cycle : BillingCycle) (now : Int) :
    List UserSubscription :=
  let expiry : Int := if billing_cycle = .yearly then now + 365 * 86400 else now + 30 * 86400
  let newSub : UserSubscription :=
    { user_id := uid, plan_id := plan_id, active := true,
      billing_cycle := billing_cycle, start_date := now, expiry_date := expiry,
      next_renewal_date := some expiry, auto_renew := false, queries_used := 0,
      documents_uploaded := 0, last_payment_date := some now,
      last_payment_intent_id := some "manual_activation",
      payment_method_id := none, renewal_attempts := 0, renewal_failed := false }
  deactivate_for uid db ++ [newSub]

/-- `EnhancedRenewalService.max_retry_attempts` (`app/utils/renewal_service.py`). -/
def max_retry_attempts : Int := 3

/-- `EnhancedRenewalService.retry_delay_days` (`app/utils/renewal_service.py`). -/
def retry_delay_days : Int := 2

/-- Outcome of the off-session `stripe.PaymentIntent.create` charge attempted
by the renewal engine: either the intent reports `succeeded`, or a Stripe
error / non-succeeded status is handled as a failure with an error message. -/
inductive ChargeOutcome where
  | succeeded (payment_intent_id : String)
  | failedWith (error_message : String)
  deriving DecidableEq, Repr

/-- Embedding of `EnhancedRenewalService.extend_subscription`
(`app/utils/renewal_service.py`): push `expiry_date` forward by the period,
set `next_renewal_date` to the new expiry, record the payment and reset the
usage counters. -/
def extend_subscription (s : UserSubscription) (days : Int)
    (payment_intent_id : String) (now : Int) : UserSubscription :=
  { s with
    expiry_date := s.expiry_date + days * 86400,
    next_renewal_date := some (s.expiry_date + days * 86400),
    last_payment_date := some now,
    last_payment_intent_id := some payment_intent_id,
    queries_used := 0, documents_uploaded := 0 }

/-- Embedding of `EnhancedRenewalService.create_renewal_payment_record`
(`app/utils/renewal_service.py`). -/
def create_renewal_payment_record (s : UserSubscription)
    (payment_intent_id : String) (amount : Int) (now : Int) : PaymentHistory :=
  { user_id := s.user_id, payment_intent_id := some payment_intent_id,
    amount := amount, currency := "usd", status := "succeeded",
    billing_cycle := s.billing_cycle, is_renewal := true,
    payment_date := some now,
    meta_info := some ("Automatic renewal - Payment Method: " ++
      ((s.payment_method_id.getD "").takeRight 4)) }

/-- Embedding of `EnhancedRenewalService.handle_renewal_failure`
(`app/utils/renewal_service.py`): record the failure, and disable
`auto_renew` once `renewal_attempts` has reached `max_retry_attempts`. -/
def handle_renewal_failure (s : UserSubscription) (error_message : String) :
    UserSubscription :=
  let s1 := { s with renewal_failed := true, failure_reason := some error_message }
  if max_retry_attempts ≤ s1.renewal_attempts then { s1 with auto_renew := false } else s1

/-- Embedding of `EnhancedRenewalService.handle_missing_payment_method`
(`app/utils/renewal_service.py`). -/
def handle_missing_payment_method (s : UserSubscription) : UserSubscription :=
  { s with
    renewal_failed := true,
    failure_reason := some "Payment method no longer available",
    auto_renew := false }

/-- Embedding of `EnhancedRenewalService.process_subscription_renewal`
(`app/utils/renewal_service.py`) for one subscription.
`payment_method_valid` is the result of `verify_payment_method_exists`, and
`charge` the outcome of the off-session charge.  Returns the updated
subscription row, the appended `PaymentHistory` rows and the boolean result of
the source function.  The source increments `renewal_attempts` and stamps
`last_renewal_attempt` before charging; on success it extends the
subscription, records a renewal payment row and clears all failure tracking;
on failure it delegates to `handle_renewal_failure`.  A missing price
(`if not amount`) aborts before any mutation. -/
def process_subscription_renewal (s : UserSubscription)
    (plan : SubscriptionPlan) (payment_method_valid : Bool)
    (charge : ChargeOutcome) (now : Int) :
    UserSubscription × List PaymentHistory × Bool :=
  if !payment_method_valid then
    (handle_missing_payment_method s, [], false)
  else
    let amount := if s.billing_cycle = .yearly then plan.yearly_price else plan.monthly_price
    let renewal_period_days : Int := if s.billing_cycle = .yearly then 365 else 30
    match amount with
    | none => (s, [], false)
    | some a =>
      if a = 0 then (s, [], false)
      else
        let s1 := { s with
                    renewal_attempts := s.renewal_attempts + 1,
                    last_renewal_attempt := some now }
        match charge with
        | .succeeded pi =>
          let s2 := extend_subscription s1 renewal_period_days pi now
          let record := create_renewal_payment_record s2 pi a now
          let s3 := { s2 with
                      renewal_failed := false, failure_reason := none,
                      renewal_attempts := 0 }
          (s3, [record], true)
        | .failedWith msg => (handle_renewal_failure s1 msg, [], false)

/-- The threshold `datetime.utcnow() + timedelta(days=3)` of
`get_subscriptions_for_renewal` (`app/utils/renewal_service.py`). -/
def renewal_threshold (now : Int) : Int := now + 3 * 86400

/-- The first candidate query of `get_subscriptions_for_renewal`
(`app/utils/renewal_service.py`): active, auto-renewing, not failed, due
within the lookahead window, with a saved payment method, owner auto-renew
enabled and a Stripe customer on file.  A SQL comparison against a NULL
column is false, hence the `Option` matches. -/
def due_for_renewal (now : Int) (u : UserRow) (s : UserSubscription) : Bool :=
  s.active && s.auto_renew && !s.renewal_failed &&
    (match s.next_renewal_date with
     | some d => decide (d ≤ renewal_threshold now)
     | none => false) &&
    s.payment_method_id.isSome && u.auto_renew_enabled &&
    u.stripe_customer_id.isSome

/-- The retry candidate query of `get_subscriptions_for_renewal`
(`app/utils/renewal_service.py`): failed renewals with fewer than
`max_retry_attempts` attempts whose last attempt is at least
`retry_delay_days` old. -/
def retry_for_renewal (now : Int) (u : UserRow) (s : UserSubscription) : Bool :=
  s.active && s.auto_renew && s.renewal_failed &&
    decide (s.renewal_attempts < max_retry_attempts) &&
    (match s.last_renewal_attempt with
     | some t => decide (t ≤ now - retry_delay_days * 86400)
     | none => false) &&
    s.payment_method_id.isSome && u.auto_renew_enabled &&
    u.stripe_customer_id.isSome

/-- A subscription is processed by `run_renewal_check` when it is in either
candidate set of `get_subscriptions_for_renewal`. -/
def selected_for_renewal (now : Int) (u : UserRow) (s : UserSubscription) : Bool :=
  due_for_renewal now u s || retry_for_renewal now u s

/-- Error outcomes of `cancel_subscription`
(`app/routers/subscription_cancellation.py`): the 404 for no active
subscription, the 400 for an already-cancelled one, and the 404 for a missing
plan.  Each is raised before any row is mutated. -/
inductive CancelError where
  | noActiveSubscription
  | alreadyCancelled
  | planNotFound
  deriving DecidableEq, Repr

/-- The `reason_mapping` dictionary of `cancel_subscription`: "other" maps to
`CancellationReason.other`, every other request string (including unknown
ones, via `.get(..., user_request)`) to `user_request`. -/
def reason_mapping (reason : String) : CancellationReason :=
  if reason = "other" then .other else .user_request

/-- `(access_until - now).days` clamped at zero:
`remaining_days = max(0, (access_until - now).days)` in
`cancel_subscription`.  Python `timedelta.days` floors, hence `Int.fdiv`. -/
def remaining_days_calc (access_until now : Int) : Int :=
  max 0 (Int.fdiv (access_until - now) 86400)

/-- The field updates applied to the subscription row by
`cancel_subscription` in the cancel-but-keep-access branch. -/
def cancel_fields (now : Int) (reason : CancellationReason)
    (feedback : Option String) (uid : Nat) (access_until : Int)
    (s : UserSubscription) : UserSubscription :=
  { s with
    is_cancelled := true, cancelled_at := some now,
    cancellation_reason := some reason, cancellation_note := feedback,
    cancelled_by_user_id := some uid, auto_renew := false,
    access_ends_at := some access_until }

/-- Embedding of `cancel_subscription`
(`app/routers/subscription_cancellation.py`).  `getPlan?` is the plan lookup
by id.  Returns the updated subscription table, the list of
`SubscriptionCancellation` rows appended (empty on error, a single row on
success) and the error raised, if any.  The immediate-cancellation variant
additionally sets `active = False` and `access_ends_at = now`, and the audit
row then records `access_until = now`, `remaining_days = 0`. -/
def cancel_subscription (getPlan? : Nat → Option SubscriptionPlan)
    (db : List UserSubscription) (uid : Nat) (reason : String)
    (feedback : Option String) (immediate_cancellation : Bool) (now : Int) :
    List UserSubscription × List SubscriptionCancellation × Option CancelError :=
  match db.find? (isActiveOf uid) with
  | none => (db, [], some .noActiveSubscription)
  | some s =>
    if s.is_cancelled then (db, [], some .alreadyCancelled)
    else
      match getPlan? s.plan_id with
      | none => (db, [], some .planNotFound)
      | some plan =>
        let creason := reason_mapping reason
        let mutate : UserSubscription → UserSubscription := fun r =>
          let r1 := cancel_fields now creason feedback uid s.expiry_date r
          if immediate_cancellation then
            { r1 with active := false, access_ends_at := some now }
          else r1
        let record : SubscriptionCancellation :=
          { user_id := uid, cancelled_at := now, reason := creason,
            user_feedback := feedback, plan_name := plan.name,
            billing_cycle := s.billing_cycle.value,
            remaining_days := if immediate_cancellation then 0
              else remaining_days_calc s.expiry_date now,
            access_until := if immediate_cancellation then now else s.expiry_date,
            prorated_refund_amount := 0 }
        (updateFirst (isActiveOf uid) mutate db, [record], none)

/-- Error outcomes of `reactivate_subscription`
(`app/routers/subscription_cancellation.py`). -/
inductive ReactivateError where
  | noCancelledSubscription
  | expired
  deriving DecidableEq, Repr

/-- The filter `user_id == uid, active == True, is_cancelled == True` used by
`reactivate_subscription`. -/
def isCancelledActiveOf (uid : Nat) (s : UserSubscription) : Bool :=
  s.user_id == uid && s.active && s.is_cancelled

/-- The field updates applied by `reactivate_subscription`: clear the
cancellation bookkeeping and re-enable auto-renewal.  (`expiry_date` and
`cancelled_by_user_id` are untouched by the source.) -/
def reactivate_fields (s : UserSubscription) : UserSubscription :=
  { s with
    is_cancelled := false, cancelled_at := none, cancellation_reason := none,
    cancellation_note := none, auto_renew := true, access_ends_at := none }

/-- Embedding of `reactivate_subscription`
(`app/routers/subscription_cancellation.py`): find the active cancelled
subscription (404 if none); reject with 400 if `now > expiry_date`; otherwise
clear the cancellation fields.  Errors are raised before any mutation, so the
table is returned unchanged in those cases. -/
def reactivate_subscription (db : List UserSubscription) (uid : Nat)
    (now : Int) : List UserSubscription × Option ReactivateError :=
  match db.find? (isCancelledActiveOf uid) with
  | none => (db, some .noCancelledSubscription)
  | some s =>
    if s.expiry_date < now then (db, some .expired)
    else (updateFirst (isCancelledActiveOf uid) reactivate_fields db, none)

/-- In-place mutation of the row at index `i`, used to model the renewal
engine committing changes to one candidate subscription. -/
def updateIdx {α : Type} : Nat → (α → α) → List α → List α
  | _, _, [] => []
  | 0, f, x :: xs => f x :: xs
  | n + 1, f, x :: xs => x :: updateIdx n f xs

/-- One observable operation of the system, covering every code path that
mutates `UserSubscription` rows: the four activation paths, a renewal-engine
step on one subscription, cancellation, reactivation, and an entitlement
check (which may mark an expired subscription inactive). -/
inductive Op where
  | webhookActivate (uid : Nat) (plan : SubscriptionPlan) (cycle : BillingCycle)
      (payment_intent_id payment_method_id : Option String) (amount : Int)
      (auto_renew_enabled : Bool) (now : Int)
  | freeActivate (uid : Nat) (now : Int)
  | paymentActivate (uid plan_id : Nat) (cycle : BillingCycle)
      (payment_intent_id : Option String) (now : Int)
  | manualActivate (uid plan_id : Nat) (cycle : BillingCycle) (now : Int)
  | renew (i : Nat) (plan : SubscriptionPlan) (payment_method_valid : Bool)
      (charge : ChargeOutcome) (now : Int)
  | cancel (getPlan? : Nat → Option SubscriptionPlan) (uid : Nat)
      (reason : String) (feedback : Option String) (immediate : Bool) (now : Int)
  | reactivate (uid : Nat) (now : Int)
  | entitlementCheck (getPlan : Nat → SubscriptionPlan) (uid : Nat) (now : Int)
      (check_query check_document : Bool)

/-- The effect of one operation on the `user_subscriptions` table. -/
def step (db : List UserSubscription) : Op → List UserSubscription
  | .webhookActivate uid plan cycle pi pm amount are now =>
      (activate_user_subscription db [] uid plan cycle pi pm amount are now).1
  | .freeActivate uid now => activate_free_plan db uid now
  | .paymentActivate uid plan_id cycle pi now =>
      update_subscription_from_payment db uid plan_id cycle pi now
  | .manualActivate uid plan_id cycle now =>
      manual_activate_subscription db uid plan_id cycle now
  | .renew i plan pmv charge now =>
      updateIdx i (fun s => (process_subscription_renewal s plan pmv charge now).1) db
  | .cancel gp uid reason fb imm now =>
      (cancel_subscription gp db uid reason fb imm now).1
  | .reactivate uid now => (reactivate_subscription db uid now).1
  | .entitlementCheck gp uid now cq cd =>
      (check_subscription_usage gp db uid now cq cd).1

/-- The one-active-subscription-per-user invariant: for every user, at most
one row of the table has `active = true`. -/
def atMostOneActive (db : List UserSubscription) : Prop :=
  ∀ uid : Nat, db.countP (isActiveOf uid) ≤ 1

theorem countP_updateFirst_le {α : Type} (p q : α → Bool) (f : α → α)
    (h : ∀ x, p (f x) = true → p x = true) :
    ∀ l : List α, (updateFirst q f l).countP p ≤ l.countP p := by
  intro l
  induction l with
  | nil => simp [updateFirst]
  | cons x xs ih =>
    by_cases hq : q x = true
    · by_cases hpf : p (f x) = true
      · simp [updateFirst, hq, List.countP_cons, hpf, h x hpf]
      · simp only [updateFirst, if_pos hq, List.countP_cons, hpf]
        by_cases hpx : p x = true <;> simp [hpx]
    · simp only [updateFirst, if_neg hq, List.countP_cons]
      by_cases hpx : p x = true <;> simp [hpx] <;> omega

theorem countP_updateIdx_le {α : Type} (p : α → Bool) (f : α → α)
    (h : ∀ x, p (f x) = true → p x = true) :
    ∀ (l : List α) (i : Nat), (updateIdx i f l).countP p ≤ l.countP p := by
  intro l
  induction l with
  | nil => intro i; simp [updateIdx]
  | cons x xs ih =>
    intro i
    cases i with
    | zero =>
      by_cases hpf : p (f x) = true
      · simp [updateIdx, List.countP_cons, hpf, h x hpf]
      · simp only [updateIdx, List.countP_cons, hpf]
        by_cases hpx : p x = true <;> simp [hpx]
    | succ n =>
      simp only [updateIdx, List.countP_cons]
      by_cases hpx : p x = true <;> simp [hpx] <;> [exact ih n; exact ih n]

theorem countP_updateFirst_found {α : Type} (p : α → Bool) (f : α → α) :
    ∀ (l : List α) (s : α), l.find? p = some s → p (f s) = false →
      (updateFirst p f l).countP p + 1 = l.countP p := by
  intro l
  induction l with
  | nil => intro s h; simp [List.find?] at h
  | cons x xs ih =>
    intro s hfind hpf
    by_cases hx : p x = true
    · have hs : s = x := by
        rw [List.find?_cons_of_pos _ hx] at hfind
        exact (Option.some_inj.mp hfind).symm
      subst hs
      simp [updateFirst, hx, List.countP_cons, hpf]
    · have htail : xs.find? p = some s := by
        rwa [List.find?_cons_of_neg _ hx] at hfind
      have := ih s htail hpf
      simp [updateFirst, hx, List.countP_cons]
      omega

theorem find?_updateFirst_of_imp {α : Type} (p q : α → Bool) (f : α → α)
    (himp : ∀ x, q x = true → p x = true) :
    ∀ (l : List α) (s : α), l.find? p = some s → q (f s) = true →
      (updateFirst p f l).find? q = some (f s) := by
  intro l
  induction l with
  | nil => intro s h; simp [List.find?] at h
  | cons x xs ih =>
    intro s hfind hqf
    by_cases hx : p x = true
    · have hs : s = x := by
        rw [List.find?_cons_of_pos _ hx] at hfind
        exact (Option.some_inj.mp hfind).symm
      subst hs
      simp only [updateFirst, if_pos hx]
      exact List.find?_cons_of_pos _ hqf
    · have hqx : ¬ q x = true := fun hq => hx (himp x hq)
      have htail : xs.find? p = some s := by
        rwa [List.find?_cons_of_neg _ hx] at hfind
      simp only [updateFirst, if_neg hx]
      rw [List.find?_cons_of_neg _ hqx]
      exact ih s htail hqf

theorem find?_updateFirst_of_sub {α : Type} (p q : α → Bool) (f : α → α)
    (himp : ∀ x, q x = true → p x = true) :
    ∀ (l : List α) (s : α), l.find? p = some s → q s = true → p (f s) = true →
      (updateFirst q f l).find? p = some (f s) := by
  intro l
  induction l with
  | nil => intro s h; simp [List.find?] at h
  | cons x xs ih =>
    intro s hfind hqs hpf
    by_cases hx : p x = true
    · have hs : s = x := by
        rw [List.find?_cons_of_pos _ hx] at hfind
        exact (Option.some_inj.mp hfind).symm
      subst hs
      simp only [updateFirst, if_pos hqs]
      exact List.find?_cons_of_pos _ hpf
    · have hqx : ¬ q x = true := fun hq => hx (himp x hq)
      have htail : xs.find? p = some s := by
        rwa [List.find?_cons_of_neg _ hx] at hfind
      simp only [updateFirst, if_neg hqx]
      rw [List.find?_cons_of_neg _ hx]
      exact ih s htail hqs hpf

theorem isActiveOf_deactivate (uid : Nat) (s : UserSubscription) :
    isActiveOf uid (if isActiveOf uid s then { s with active := false } else s) = false := by
  cases hb : isActiveOf uid s with
  | false => simp [hb]
  | true => simp [hb, isActiveOf]

theorem countP_deactivate_self (uid : Nat) (db : List UserSubscription) :
    (deactivate_for uid db).countP (isActiveOf uid) = 0 := by
  rw [List.countP_eq_zero]
  intro a ha
  obtain ⟨s, _, rfl⟩ := List.mem_map.mp ha
  simp [isActiveOf_deactivate]

theorem countP_deactivate_other (uid v : Nat) (hv : v ≠ uid)
    (db : List UserSubscription) :
    (deactivate_for uid db).countP (isActiveOf v) = db.countP (isActiveOf v) := by
  rw [deactivate_for, List.countP_map]
  apply List.countP_congr
  intro s _
  cases hb : isActiveOf uid s with
  | false => simp [hb]
  | true =>
    have hs : s.user_id = uid ∧ s.active = true := by
      have := hb
      simp only [isActiveOf, Bool.and_eq_true, beq_iff_eq] at this
      exact this
    have huv : (uid == v) = false := by
      simp only [beq_eq_false_iff_ne, ne_eq]
      exact fun hh => hv hh.symm
    simp [hb, isActiveOf, hs.1, hs.2, huv]

theorem atMostOneActive_activation (db : List UserSubscription) (uid : Nat)
    (newSub : UserSubscription) (hnew : newSub.user_id = uid)
    (h : atMostOneActive db) :
    atMostOneActive (deactivate_for uid db ++ [newSub]) := by
  intro v
  rw [List.countP_append]
  by_cases hv : v = uid
  · subst hv
    rw [countP_deactivate_self]
    have hle : List.countP (isActiveOf v) [newSub] ≤ 1 :=
      le_trans (List.countP_le_length _) (by simp)
    omega
  · rw [countP_deactivate_other uid v hv]
    have huv : (uid == v) = false := by
      simp only [beq_eq_false_iff_ne, ne_eq]
      exact fun hh => hv hh.symm
    have hzero : List.countP (isActiveOf v) [newSub] = 0 := by
      simp [isActiveOf, hnew, huv]
    rw [hzero]
    simpa using h v

theorem process_renewal_active_user_id (s : UserSubscription)
    (plan : SubscriptionPlan) (pmv : Bool) (charge : ChargeOutcome) (now : Int) :
    ((process_subscription_renewal s plan pmv charge now).1).active = s.active ∧
      ((process_subscription_renewal s plan pmv charge now).1).user_id = s.user_id := by
  unfold process_subscription_renewal
  cases pmv with
  | false => simp [handle_missing_payment_method]
  | true =>
    simp only [Bool.not_true, Bool.false_eq_true, if_false]
    cases hA : (if s.billing_cycle = .yearly then plan.yearly_price else plan.monthly_price) with
    | none => simp
    | some a =>
      by_cases ha : a = 0
      · simp [ha]
      · cases charge with
        | succeeded pi => simp [ha, extend_subscription]
        | failedWith msg =>
          simp only [ha, if_neg ha, handle_renewal_failure]
          by_cases hm : max_retry_attempts ≤ s.renewal_attempts + 1 <;> simp [hm]

theorem isActiveOf_cancel_mutate (v uid : Nat) (now access_until : Int)
    (creason : CancellationReason) (feedback : Option String) (imm : Bool)
    (x : UserSubscription)
    (h : isActiveOf v (if imm then
        { cancel_fields now creason feedback uid access_until x with
          active := false, access_ends_at := some now }
      else cancel_fields now creason feedback uid access_until x) = true) :
    isActiveOf v x = true := by
  cases imm <;> simpa [isActiveOf, cancel_fields] using h

theorem step_preserves_atMostOneActive (db : List UserSubscription) (op : Op)
    (h : atMostOneActive db) : atMostOneActive (step db op) := by
  cases op with
  | webhookActivate uid plan cycle pi pm amount are now =>
    simp only [step, activate_user_subscription]
    exact atMostOneActive_activation db uid _ rfl h
  | freeActivate uid now =>
    simp only [step, activate_free_plan]
    exact atMostOneActive_activation db uid _ rfl h
  | paymentActivate uid plan_id cycle pi now =>
    simp only [step, update_subscription_from_payment]
    exact atMostOneActive_activation db uid _ rfl h
  | manualActivate uid plan_id cycle now =>
    simp only [step, manual_activate_subscription]
    exact atMostOneActive_activation db uid _ rfl h
  | renew i plan pmv charge now =>
    intro v
    refine le_trans (countP_updateIdx_le _ _ ?_ db i) (h v)
    intro x hx
    have hp := process_renewal_active_user_id x plan pmv charge now
    rw [isActiveOf, hp.1, hp.2] at hx
    exact hx
  | cancel gp uid reason fb imm now =>
    simp only [step, cancel_subscription]
    cases hf : db.find? (isActiveOf uid) with
    | none => exact h
    | some s =>
      by_cases hc : s.is_cancelled = true
      · simp [hc]; exact h
      · simp only [hc, Bool.false_eq_true, if_false, if_neg]
        cases hp : gp s.plan_id with
        | none => simp [hc]; exact h
        | some plan =>
          simp only [hc, Bool.false_eq_true, if_false]
          intro v
          refine le_trans (countP_updateFirst_le _ _ _ ?_ db) (h v)
          intro x hx
          exact isActiveOf_cancel_mutate v uid now s.expiry_date
            (reason_mapping reason) fb imm x hx
  | reactivate uid now =>
    simp only [step, reactivate_subscription]
    cases hf : db.find? (isCancelledActiveOf uid) with
    | none => exact h
    | some s =>
      by_cases he : s.expiry_date < now
      · simp [he]; exact h
      · simp only [he, if_false, if_neg he]
        intro v
        refine le_trans (countP_updateFirst_le _ _ _ ?_ db) (h v)
        intro x hx
        simpa [isActiveOf, reactivate_fields] using hx
  | entitlementCheck gp uid now cq cd =>
    simp only [step, check_subscription_usage]
    cases hf : db.find? (isActiveOf uid) with
    | none => exact h
    | some s =>
      by_cases he : s.expiry_date < now
      · simp only [he, if_pos he]
        intro v
        refine le_trans (countP_updateFirst_le _ _ _ ?_ db) (h v)
        intro x hx
        simp [isActiveOf] at hx
      · simp [he]; exact h

theorem foldl_step_preserves (ops : List Op) :
    ∀ db : List UserSubscription, atMostOneActive db →
      atMostOneActive (ops.foldl step db) := by
  induction ops with
  | nil => intro db h; simpa using h
  | cons op ops ih =>
    intro db h
    exact ih (step db op) (step_preserves_atMostOneActive db op h)

/-- Claim C1: starting from an empty subscription table, after any sequence
of system operations (checkout activation, free-plan activation, checkout
confirmation, manual activation, renewal steps, cancellation, reactivation,
entitlement checks with their expiry marking), every user has at most one
`UserSubscription` row with `active = true`. -/
theorem c1_at_most_one_active (ops : List Op) :
    atMostOneActive (ops.foldl step []) :=
  foldl_step_preserves ops [] (fun uid => by simp)

/-- The "Solo" plan as seeded by `app/seed/subscription_seed.py`. -/
def soloPlan : SubscriptionPlan :=
  { id := 2, name := "Solo", monthly_price := some 999, yearly_price := some 9900,
    query_limit := 500, document_upload_limit := 10, ninja_mode := true,
    meme_generator := true }

/-- The "Enterprise" plan as seeded by `app/seed/subscription_seed.py`; its
`query_limit = 0` carries the seed comment "Unlimited". -/
def enterprisePlan : SubscriptionPlan :=
  { id := 4, name := "Enterprise", monthly_price := some 9999,
    yearly_price := some 99900, query_limit := 0, document_upload_limit := 200,
    ninja_mode := true, meme_generator := true }

/-- A concrete active Solo subscription (user 7, expiring at 2592000)
used as witness input. -/
def sampleSub : UserSubscription :=
  { user_id := 7, plan_id := 2, start_date := 0, expiry_date := 2592000,
    billing_cycle := .monthly, active := true, auto_renew := true,
    last_payment_date := some 0, last_payment_intent_id := some "pi_0",
    payment_method_id := some "pm_0", next_renewal_date := some 2592000,
    renewal_attempts := 0, renewal_failed := false, queries_used := 3,
    documents_uploaded := 1 }

/-- A concrete active Enterprise subscription (user 9) with no usage yet. -/
def enterpriseSub : UserSubscription :=
  { user_id := 9, plan_id := 4, start_date := 0, expiry_date := 2592000,
    billing_cycle := .monthly, active := true, auto_renew := true,
    last_payment_date := some 0, last_payment_intent_id := some "pi_9",
    payment_method_id := some "pm_9", next_renewal_date := some 2592000,
    renewal_attempts := 0, renewal_failed := false, queries_used := 0,
    documents_uploaded := 0 }

/-- Claim C2, counterexample: an active, non-expired Enterprise subscription
(`query_limit = 0`, seeded as unlimited) with zero queries used is rejected
by `check_subscription_usage` with a 0/0 limit-exceeded error, where the
claim says a zero query limit means the check never fails for this reason. -/
theorem c2_zero_limit_counterexample :
    (check_subscription_usage (fun _ => enterprisePlan) [enterpriseSub] 9 1000
        true false).2 =
      Except.error (.queryLimitExceeded 0 0) := by
  rfl

/-- Claim C2 (amended): for a user whose first active subscription is not
expired, the check fails with `queryLimitExceeded` (carrying the current and
limit counts) exactly when `check_query` is set and `queries_used` has
reached `query_limit` — there is no `query_limit = 0` unlimited case, so a
zero limit fails immediately — and fails with `documentLimitExceeded`
exactly when the query check did not fire, `check_document` is set and
`documents_uploaded` has reached `document_upload_limit`. -/
theorem c2_limit_check_amended (getPlan : Nat → SubscriptionPlan)
    (db : List UserSubscription) (uid : Nat) (now : Int) (cq cd : Bool)
    (s : UserSubscription)
    (hfind : db.find? (isActiveOf uid) = some s)
    (hexp : ¬ s.expiry_date < now) :
    ((check_subscription_usage getPlan db uid now cq cd).2 =
        Except.error (.queryLimitExceeded s.queries_used (getPlan s.plan_id).query_limit) ↔
      cq = true ∧ (getPlan s.plan_id).query_limit ≤ s.queries_used) ∧
    ((check_subscription_usage getPlan db uid now cq cd).2 =
        Except.error (.documentLimitExceeded s.documents_uploaded (getPlan s.plan_id).document_upload_limit) ↔
      cd = true ∧ (getPlan s.plan_id).document_upload_limit ≤ s.documents_uploaded ∧
        ¬ (cq = true ∧ (getPlan s.plan_id).query_limit ≤ s.queries_used)) := by
  unfold check_subscription_usage
  rw [hfind]
  simp only [if_neg hexp]
  by_cases h1 : (cq && decide ((getPlan s.plan_id).query_limit ≤ s.queries_used)) = true
  · have h1p : cq = true ∧ (getPlan s.plan_id).query_limit ≤ s.queries_used := by
      simpa [Bool.and_eq_true, decide_eq_true_eq] using h1
    simp [h1, h1p]
  · have h1p : ¬ (cq = true ∧ (getPlan s.plan_id).query_limit ≤ s.queries_used) := by
      simpa [Bool.and_eq_true, decide_eq_true_eq] using h1
    by_cases h2 : (cd && decide ((getPlan s.plan_id).document_upload_limit ≤ s.documents_uploaded)) = true
    · have h2p : cd = true ∧ (getPlan s.plan_id).document_upload_limit ≤ s.documents_uploaded := by
        simpa [Bool.and_eq_true, decide_eq_true_eq] using h2
      simp [h1, h2, h1p, h2p]
    · have h2p : ¬ (cd = true ∧ (getPlan s.plan_id).document_upload_limit ≤ s.documents_uploaded) := by
        simpa [Bool.and_eq_true, decide_eq_true_eq] using h2
      simp only [h1, h2, if_neg, Bool.false_eq_true, if_false]
      constructor
      · simp only [iff_def]
        exact ⟨fun h => absurd h (by simp), fun h => absurd h h1p⟩
      · simp only [iff_def]
        exact ⟨fun h => absurd h (by simp), fun h => absurd h.1 (fun hcd => h2p ⟨hcd, h.2.1⟩)⟩

theorem c2_limit_check_amended_witness :
    ([sampleSub].find? (isActiveOf 7) = some sampleSub) ∧
    (¬ sampleSub.expiry_date < 1000) ∧
    (((check_subscription_usage (fun _ => soloPlan) [sampleSub] 7 1000 true false).2 =
        Except.error (.queryLimitExceeded sampleSub.queries_used
          ((fun _ => soloPlan) sampleSub.plan_id).query_limit) ↔
      true = true ∧ ((fun _ => soloPlan) sampleSub.plan_id).query_limit ≤ sampleSub.queries_used) ∧
     ((check_subscription_usage (fun _ => soloPlan) [sampleSub] 7 1000 true false).2 =
        Except.error (.documentLimitExceeded sampleSub.documents_uploaded
          ((fun _ => soloPlan) sampleSub.plan_id).document_upload_limit) ↔
      false = true ∧ ((fun _ => soloPlan) sampleSub.plan_id).document_upload_limit ≤ sampleSub.documents_uploaded ∧
        ¬ (true = true ∧ ((fun _ => soloPlan) sampleSub.plan_id).query_limit ≤ sampleSub.queries_used))) :=
  ⟨rfl, by decide,
    c2_limit_check_amended (fun _ => soloPlan) [sampleSub] 7 1000 true false
      sampleSub rfl (by decide)⟩

/-- Claim C3, counterexample: a subscription whose `expiry_date` equals the
current instant exactly is NOT treated as expired by the entitlement check:
the row is not marked inactive and the check succeeds, where the claim says
an access at `expiry_date` is rejected as expired. -/
theorem c3_boundary_counterexample :
    check_subscription_usage (fun _ => soloPlan) [sampleSub] 7
        sampleSub.expiry_date true true =
      ([sampleSub], Except.ok sampleSub) := by
  rfl

/-- Claim C3 (amended): the entitlement check marks the found subscription
inactive (one fewer active row persisted) and fails with "subscription
expired" exactly when its expiry date is strictly before the current time; a
subscription whose `expiry_date` equals the current instant is still treated
as active on that access (the table is unchanged and no expired error is
raised). -/
theorem c3_expiry_check_amended (getPlan : Nat → SubscriptionPlan)
    (db : List UserSubscription) (uid : Nat) (now : Int) (cq cd : Bool)
    (s : UserSubscription)
    (hfind : db.find? (isActiveOf uid) = some s) :
    (s.expiry_date < now →
      (check_subscription_usage getPlan db uid now cq cd).2 =
          Except.error .subscriptionExpired ∧
      ((check_subscription_usage getPlan db uid now cq cd).1).countP (isActiveOf uid) + 1 =
        db.countP (isActiveOf uid)) ∧
    (¬ s.expiry_date < now →
      (check_subscription_usage getPlan db uid now cq cd).1 = db ∧
      (check_subscription_usage getPlan db uid now cq cd).2 ≠
          Except.error .subscriptionExpired) := by
  unfold check_subscription_usage
  rw [hfind]
  constructor
  · intro h
    simp only [if_pos h]
    refine ⟨trivial, ?_⟩
    exact countP_updateFirst_found (isActiveOf uid) _ db s hfind (by simp [isActiveOf])
  · intro h
    simp only [if_neg h]
    refine ⟨trivial, ?_⟩
    by_cases h1 : (cq && decide ((getPlan s.plan_id).query_limit ≤ s.queries_used)) = true
    · simp [h1]
    · by_cases h2 : (cd && decide ((getPlan s.plan_id).document_upload_limit ≤ s.documents_uploaded)) = true
      · simp [h1, h2]
      · simp [h1, h2]

theorem c3_expiry_check_amended_witness :
    ([sampleSub].find? (isActiveOf 7) = some sampleSub) ∧
    ((sampleSub.expiry_date < 5000000 →
      (check_subscription_usage (fun _ => soloPlan) [sampleSub] 7 5000000 true true).2 =
          Except.error .subscriptionExpired ∧
      ((check_subscription_usage (fun _ => soloPlan) [sampleSub] 7 5000000 true true).1).countP (isActiveOf 7) + 1 =
        [sampleSub].countP (isActiveOf 7)) ∧
    (¬ sampleSub.expiry_date < 5000000 →
      (check_subscription_usage (fun _ => soloPlan) [sampleSub] 7 5000000 true true).1 = [sampleSub] ∧
      (check_subscription_usage (fun _ => soloPlan) [sampleSub] 7 5000000 true true).2 ≠
          Except.error .subscriptionExpired)) :=
  ⟨rfl, c3_expiry_check_amended (fun _ => soloPlan) [sampleSub] 7 5000000 true true
    sampleSub rfl⟩

/-- First delivery of the `checkout.session.completed` webhook for payment
intent "pi_42" into an empty state: `handle_checkout_completed`
(`app/routers/webhook.py`) resolves the customer to user 7, the payment
intent to its method and amount, the metadata to the Solo plan, and then
calls `activate_user_subscription`; it performs no payment-intent
deduplication check beforehand. -/
def first_delivery : List UserSubscription × List PaymentHistory :=
  activate_user_subscription [] [] 7 soloPlan .monthly (some "pi_42")
    (some "pm_1") 999 true 1000

/-- A second, duplicate delivery of exactly the same event, as produced by
at-least-once webhook delivery. -/
def second_delivery : List UserSubscription × List PaymentHistory :=
  activate_user_subscription first_delivery.1 first_delivery.2 7 soloPlan
    .monthly (some "pi_42") (some "pm_1") 999 true 1000

/-- Claim C4: delivering the same checkout-completion event (payment intent
"pi_42") twice is not absorbed as a no-op: the state after the duplicate
delivery holds two `PaymentHistory` rows and two `UserSubscription` rows for
the user (the first one deactivated, a fresh active one inserted), where the
claim requires exactly one payment row and an unchanged subscription. -/
theorem c4_duplicate_delivery_not_absorbed :
    second_delivery.2.length = 2 ∧ second_delivery.1.length = 2 ∧
      second_delivery.1.countP (isActiveOf 7) = 1 := by
  refine ⟨rfl, rfl, rfl⟩

/-- The post-state shape claimed for every activation path: the table is the
old table (with every row of the user now inactive) plus one appended row,
active, with zeroed counters and a 30-day (monthly) or 365-day (yearly)
expiry from the activation time. -/
def activationShape (db_out db : List UserSubscription) (uid : Nat)
    (cycle : BillingCycle) (now : Int) : Prop :=
  ∃ pre newSub, db_out = pre ++ [newSub] ∧ pre.length = db.length ∧
    (∀ r ∈ pre, r.user_id = uid → r.active = false) ∧
    newSub.user_id = uid ∧ newSub.active = true ∧
    newSub.queries_used = 0 ∧ newSub.documents_uploaded = 0 ∧
    newSub.expiry_date =
      (if cycle = .yearly then now + 365 * 86400 else now + 30 * 86400)

theorem deactivate_for_inactive (uid : Nat) (db : List UserSubscription) :
    ∀ r ∈ deactivate_for uid db, r.user_id = uid → r.active = false := by
  intro r hr
  obtain ⟨s, _, rfl⟩ := List.mem_map.mp hr
  intro hu
  cases hb : isActiveOf uid s with
  | true => simp [hb]
  | false =>
    simp only [hb, Bool.false_eq_true, if_false]
    rw [if_neg (by simp [hb])] at hu
    simpa [isActiveOf, hu] using hb

/-- Claim C5: each of the three paid activation paths — webhook-driven
confirmation (`activate_user_subscription`), checkout confirmation
(`update_subscription_from_payment`) and manual activation
(`manual_activate_subscription`) — leaves every pre-existing row of the user
inactive and inserts exactly one new row, active, with `queries_used = 0`,
`documents_uploaded = 0` and expiry equal to the activation time plus 30
days (monthly) or 365 days (yearly). -/
theorem c5_activation_resets (db : List UserSubscription)
    (hist : List PaymentHistory) (uid : Nat) (plan : SubscriptionPlan)
    (plan_id : Nat) (cycle : BillingCycle) (pi pm : Option String)
    (amount : Int) (are : Bool) (now : Int) :
    activationShape
      ((activate_user_subscription db hist uid plan cycle pi pm amount are now).1)
      db uid cycle now ∧
    activationShape (update_subscription_from_payment db uid plan_id cycle pi now)
      db uid cycle now ∧
    activationShape (manual_activate_subscription db uid plan_id cycle now)
      db uid cycle now := by
  refine ⟨?_, ?_, ?_⟩ <;>
    exact ⟨deactivate_for uid db, _, rfl, by simp [deactivate_for],
      deactivate_for_inactive uid db, rfl, rfl, rfl, rfl, rfl⟩

/-- Claim C6: a renewal whose off-session charge succeeds extends
`expiry_date` by the billing-cycle period (30 days monthly, 365 days yearly)
and `next_renewal_date` (equal to the expiry on every creation path) by the
same period, resets `queries_used`, `documents_uploaded` and
`renewal_attempts` to zero, clears `renewal_failed` and `failure_reason`,
and appends exactly one `PaymentHistory` row marked as a renewal. -/
theorem c6_renewal_success (s : UserSubscription) (plan : SubscriptionPlan)
    (now : Int) (pi : String) (a period : Int)
    (out : UserSubscription × List PaymentHistory × Bool)
    (hamount : (if s.billing_cycle = .yearly then plan.yearly_price
      else plan.monthly_price) = some a)
    (ha : ¬ a = 0)
    (hperiod : period = if s.billing_cycle = .yearly then 365 else 30)
    (hnrd : s.next_renewal_date = some s.expiry_date)
    (hout : out = process_subscription_renewal s plan true (.succeeded pi) now) :
    out.1.expiry_date = s.expiry_date + period * 86400 ∧
    out.1.next_renewal_date = s.next_renewal_date.map (fun d => d + period * 86400) ∧
    out.1.queries_used = 0 ∧ out.1.documents_uploaded = 0 ∧
    out.1.renewal_attempts = 0 ∧ out.1.renewal_failed = false ∧
    out.1.failure_reason = none ∧
    out.2.1.length = 1 ∧
    (∀ r ∈ out.2.1, r.is_renewal = true ∧ r.amount = a ∧ r.status = "succeeded") ∧
    out.2.2 = true := by
  have hred : out = ({ extend_subscription
        { s with renewal_attempts := s.renewal_attempts + 1,
                 last_renewal_attempt := some now } period pi now with
      renewal_failed := false, failure_reason := none, renewal_attempts := 0 },
      [create_renewal_payment_record (extend_subscription
        { s with renewal_attempts := s.renewal_attempts + 1,
                 last_renewal_attempt := some now } period pi now) pi a now],
      true) := by
    rw [hout, hperiod]
    unfold process_subscription_renewal
    simp [hamount, ha]
  rw [hred, hnrd]
  unfold extend_subscription create_renewal_payment_record
  refine ⟨rfl, rfl, rfl, rfl, rfl, rfl, rfl, rfl, ?_, rfl⟩
  intro r hr
  rw [List.mem_singleton] at hr
  subst hr
  exact ⟨rfl, rfl, rfl⟩

theorem c6_renewal_success_witness :
    ((if sampleSub.billing_cycle = .yearly then soloPlan.yearly_price
      else soloPlan.monthly_price) = some 999) ∧
    (¬ (999 : Int) = 0) ∧
    ((30 : Int) = if sampleSub.billing_cycle = .yearly then 365 else 30) ∧
    (sampleSub.next_renewal_date = some sampleSub.expiry_date) ∧
    ((process_subscription_renewal sampleSub soloPlan true
        (.succeeded "pi_renew") 1000000).1.expiry_date =
      sampleSub.expiry_date + 30 * 86400 ∧
    (process_subscription_renewal sampleSub soloPlan true
        (.succeeded "pi_renew") 1000000).1.next_renewal_date =
      sampleSub.next_renewal_date.map (fun d => d + 30 * 86400) ∧
    (process_subscription_renewal sampleSub soloPlan true
        (.succeeded "pi_renew") 1000000).1.queries_used = 0 ∧
    (process_subscription_renewal sampleSub soloPlan true
        (.succeeded "pi_renew") 1000000).1.documents_uploaded = 0 ∧
    (process_subscription_renewal sampleSub soloPlan true
        (.succeeded "pi_renew") 1000000).1.renewal_attempts = 0 ∧
    (process_subscription_renewal sampleSub soloPlan true
        (.succeeded "pi_renew") 1000000).1.renewal_failed = false ∧
    (process_subscription_renewal sampleSub soloPlan true
        (.succeeded "pi_renew") 1000000).1.failure_reason = none ∧
    (process_subscription_renewal sampleSub soloPlan true
        (.succeeded "pi_renew") 1000000).2.1.length = 1 ∧
    (∀ r ∈ (process_subscription_renewal sampleSub soloPlan true
        (.succeeded "pi_renew") 1000000).2.1,
      r.is_renewal = true ∧ r.amount = 999 ∧ r.status = "succeeded") ∧
    (process_subscription_renewal sampleSub soloPlan true
        (.succeeded "pi_renew") 1000000).2.2 = true) :=
  ⟨rfl, by decide, rfl, rfl,
    c6_renewal_success sampleSub soloPlan 1000000 "pi_renew" 999 30 _ rfl
      (by decide) rfl rfl rfl⟩

theorem retry_for_renewal_spec (now : Int) (u : UserRow)
    (s : UserSubscription) (h : retry_for_renewal now u s = true) :
    s.renewal_attempts < max_retry_attempts ∧
    ∃ t0, s.last_renewal_attempt = some t0 ∧
      t0 + retry_delay_days * 86400 ≤ now := by
  unfold retry_for_renewal at h
  cases hl : s.last_renewal_attempt with
  | none => rw [hl] at h; simp at h
  | some t0 =>
    rw [hl] at h
    simp only [Bool.and_eq_true, decide_eq_true_eq] at h
    exact ⟨h.1.1.1.1.2, t0, rfl, by omega⟩

/-- Claim C7: a renewal whose charge fails records `renewal_failed = true`
and the failure reason, increments `renewal_attempts`; below the maximum
retry count `auto_renew` is unchanged and the failed subscription is
re-selected by `get_subscriptions_for_renewal` only after the cooldown
window; once attempts reach the maximum `auto_renew` is cleared, and with
`auto_renew = false` the subscription is never again selected; the
due-for-renewal query never matches a failed subscription at all. -/
theorem c7_renewal_failure (s : UserSubscription) (plan : SubscriptionPlan)
    (now : Int) (msg : String) (a : Int) (u : UserRow) (t : Int)
    (out : UserSubscription × List PaymentHistory × Bool)
    (hamount : (if s.billing_cycle = .yearly then plan.yearly_price
      else plan.monthly_price) = some a)
    (ha : ¬ a = 0)
    (hout : out = process_subscription_renewal s plan true (.failedWith msg) now) :
    out.1.renewal_failed = true ∧
    out.1.failure_reason = some msg ∧
    out.1.renewal_attempts = s.renewal_attempts + 1 ∧
    (s.renewal_attempts + 1 < max_retry_attempts → out.1.auto_renew = s.auto_renew) ∧
    (max_retry_attempts ≤ s.renewal_attempts + 1 → out.1.auto_renew = false) ∧
    (retry_for_renewal t u out.1 = true →
      now + retry_delay_days * 86400 ≤ t ∧
      out.1.renewal_attempts < max_retry_attempts) ∧
    (out.1.auto_renew = false → selected_for_renewal t u out.1 = false) ∧
    due_for_renewal t u out.1 = false := by
  by_cases hm : max_retry_attempts ≤ s.renewal_attempts + 1
  · have h1 : out.1 = { s with
        renewal_attempts := s.renewal_attempts + 1,
        last_renewal_attempt := some now, renewal_failed := true,
        failure_reason := some msg, auto_renew := false } := by
      rw [hout]
      unfold process_subscription_renewal handle_renewal_failure
      simp [hamount, ha, hm]
    rw [h1]
    refine ⟨rfl, rfl, rfl, fun hlt => absurd hm (not_le.mpr hlt),
      fun _ => rfl, ?_, ?_, ?_⟩
    · intro hr
      simp [retry_for_renewal] at hr
    · intro _
      simp [selected_for_renewal, due_for_renewal, retry_for_renewal]
    · simp [due_for_renewal]
  · have h1 : out.1 = { s with
        renewal_attempts := s.renewal_attempts + 1,
        last_renewal_attempt := some now, renewal_failed := true,
        failure_reason := some msg } := by
      rw [hout]
      unfold process_subscription_renewal handle_renewal_failure
      simp [hamount, ha, hm]
    rw [h1]
    refine ⟨rfl, rfl, rfl, fun _ => rfl, fun hge => absurd hge hm, ?_, ?_, ?_⟩
    · intro hr
      obtain ⟨hlt, t0, ht0, hcool⟩ := retry_for_renewal_spec t u _ hr
      have ht0n : t0 = now := by
        have := ht0
        simp only [Option.some_inj] at this
        exact this.symm
      subst ht0n
      exact ⟨by omega, hlt⟩
    · intro hA
      have hA' : s.auto_renew = false := hA
      simp [selected_for_renewal, due_for_renewal, retry_for_renewal, hA']
    · simp [due_for_renewal]

/-- A concrete user row for the renewal-failure witness. -/
def c7User : UserRow :=
  { id := 7, auto_renew_enabled := true, stripe_customer_id := some "cus_7" }

theorem c7_renewal_failure_witness :
    ((if sampleSub.billing_cycle = .yearly then soloPlan.yearly_price
      else soloPlan.monthly_price) = some 999) ∧
    (¬ (999 : Int) = 0) ∧
    ((process_subscription_renewal sampleSub soloPlan true
        (.failedWith "card declined") 1000000).1.renewal_failed = true ∧
    (process_subscription_renewal sampleSub soloPlan true
        (.failedWith "card declined") 1000000).1.failure_reason = some "card declined" ∧
    (process_subscription_renewal sampleSub soloPlan true
        (.failedWith "card declined") 1000000).1.renewal_attempts =
      sampleSub.renewal_attempts + 1 ∧
    (sampleSub.renewal_attempts + 1 < max_retry_attempts →
      (process_subscription_renewal sampleSub soloPlan true
        (.failedWith "card declined") 1000000).1.auto_renew = sampleSub.auto_renew) ∧
    (max_retry_attempts ≤ sampleSub.renewal_attempts + 1 →
      (process_subscription_renewal sampleSub soloPlan true
        (.failedWith "card declined") 1000000).1.auto_renew = false) ∧
    (retry_for_renewal 1300000 c7User
      (process_subscription_renewal sampleSub soloPlan true
        (.failedWith "card declined") 1000000).1 = true →
      1000000 + retry_delay_days * 86400 ≤ 1300000 ∧
      (process_subscription_renewal sampleSub soloPlan true
        (.failedWith "card declined") 1000000).1.renewal_attempts < max_retry_attempts) ∧
    ((process_subscription_renewal sampleSub soloPlan true
        (.failedWith "card declined") 1000000).1.auto_renew = false →
      selected_for_renewal 1300000 c7User
      (process_subscription_renewal sampleSub soloPlan true
        (.failedWith "card declined") 1000000).1 = false) ∧
    due_for_renewal 1300000 c7User
      (process_subscription_renewal sampleSub soloPlan true
        (.failedWith "card declined") 1000000).1 = false) :=
  ⟨rfl, by decide,
    c7_renewal_failure sampleSub soloPlan 1000000 "card declined" 999
      c7User 1300000 _ rfl (by decide) rfl⟩

theorem cancel_subscription_success (getPlan? : Nat → Option SubscriptionPlan)
    (db : List UserSubscription) (uid : Nat) (reason : String)
    (feedback : Option String) (now : Int) (s : UserSubscription)
    (plan : SubscriptionPlan)
    (hfind : db.find? (isActiveOf uid) = some s)
    (hnc : s.is_cancelled = false)
    (hplan : getPlan? s.plan_id = some plan) :
    cancel_subscription getPlan? db uid reason feedback false now =
      (updateFirst (isActiveOf uid)
        (fun r => cancel_fields now (reason_mapping reason) feedback uid s.expiry_date r) db,
       [{ user_id := uid, cancelled_at := now, reason := reason_mapping reason,
          user_feedback := feedback, plan_name := plan.name,
          billing_cycle := s.billing_cycle.value,
          remaining_days := remaining_days_calc s.expiry_date now,
          access_until := s.expiry_date, prorated_refund_amount := 0 }],
       none) := by
  unfold cancel_subscription
  rw [hfind]
  simp [hnc, hplan]

theorem isActiveOf_cancel_fields (uid : Nat) (now access_until : Int)
    (creason : CancellationReason) (feedback : Option String)
    (s : UserSubscription) :
    isActiveOf uid (cancel_fields now creason feedback uid access_until s) =
      isActiveOf uid s := by
  simp [isActiveOf, cancel_fields]

theorem isCancelledActiveOf_imp (uid : Nat) (x : UserSubscription)
    (hx : isCancelledActiveOf uid x = true) : isActiveOf uid x = true := by
  simp only [isCancelledActiveOf, Bool.and_eq_true] at hx
  simp only [isActiveOf, Bool.and_eq_true]
  exact hx.1

/-- Claim C8: cancelling an active, not-yet-cancelled subscription (default,
non-immediate path) sets `is_cancelled = true` and `auto_renew = false`,
sets `access_ends_at` to the unchanged `expiry_date`, leaves the row active,
creates exactly one `SubscriptionCancellation` audit row capturing the plan
name, the billing cycle, the remaining days and the access-until date, and
the entitlement check at any later time not past the expiry (with usage
below the limits) still succeeds on the cancelled subscription. -/
theorem c8_cancellation (getPlan? : Nat → Option SubscriptionPlan)
    (getPlan : Nat → SubscriptionPlan) (db : List UserSubscription)
    (uid : Nat) (reason : String) (feedback : Option String) (now t : Int)
    (cq cd : Bool) (s s' : UserSubscription) (plan : SubscriptionPlan)
    (hfind : db.find? (isActiveOf uid) = some s)
    (hnc : s.is_cancelled = false)
    (hplan : getPlan? s.plan_id = some plan)
    (hs' : s' = cancel_fields now (reason_mapping reason) feedback uid s.expiry_date s)
    (ht : ¬ s.expiry_date < t)
    (hq : cq = true → s.queries_used < (getPlan s.plan_id).query_limit)
    (hd : cd = true → s.documents_uploaded < (getPlan s.plan_id).document_upload_limit) :
    (cancel_subscription getPlan? db uid reason feedback false now).2.2 = none ∧
    (cancel_subscription getPlan? db uid reason feedback false now).2.1 =
      [{ user_id := uid, cancelled_at := now, reason := reason_mapping reason,
         user_feedback := feedback, plan_name := plan.name,
         billing_cycle := s.billing_cycle.value,
         remaining_days := remaining_days_calc s.expiry_date now,
         access_until := s.expiry_date, prorated_refund_amount := 0 }] ∧
    ((cancel_subscription getPlan? db uid reason feedback false now).1).find?
      (isActiveOf uid) = some s' ∧
    s'.active = true ∧ s'.is_cancelled = true ∧ s'.auto_renew = false ∧
    s'.access_ends_at = some s.expiry_date ∧ s'.expiry_date = s.expiry_date ∧
    (check_subscription_usage getPlan
      ((cancel_subscription getPlan? db uid reason feedback false now).1)
      uid t cq cd).2 = Except.ok s' := by
  have hps : isActiveOf uid s = true := List.find?_some hfind
  have hact : s.active = true := by
    simp only [isActiveOf, Bool.and_eq_true] at hps
    exact hps.2
  have hres := cancel_subscription_success getPlan? db uid reason feedback now
    s plan hfind hnc hplan
  have hqf : isActiveOf uid
      (cancel_fields now (reason_mapping reason) feedback uid s.expiry_date s) = true := by
    rw [isActiveOf_cancel_fields]
    exact hps
  have hfind' : ((cancel_subscription getPlan? db uid reason feedback false now).1).find?
      (isActiveOf uid) = some s' := by
    rw [hres, hs']
    exact find?_updateFirst_of_imp _ _ _ (fun x hx => hx) db s hfind hqf
  refine ⟨by rw [hres], by rw [hres], hfind', ?_, ?_, ?_, ?_, ?_, ?_⟩
  · rw [hs']
    simpa [cancel_fields] using hact
  · rw [hs']; simp [cancel_fields]
  · rw [hs']; simp [cancel_fields]
  · rw [hs']; simp [cancel_fields]
  · rw [hs']; simp [cancel_fields]
  · have hexp : ¬ s'.expiry_date < t := by
      rw [hs']
      simpa [cancel_fields] using ht
    have hpq : s'.plan_id = s.plan_id := by rw [hs']; simp [cancel_fields]
    have hqu : s'.queries_used = s.queries_used := by rw [hs']; simp [cancel_fields]
    have hdu : s'.documents_uploaded = s.documents_uploaded := by
      rw [hs']; simp [cancel_fields]
    have hc1 : (cq && decide ((getPlan s'.plan_id).query_limit ≤ s'.queries_used)) = false := by
      cases hcq : cq with
      | false => rfl
      | true =>
        have := hq hcq
        simp [hpq, hqu, not_le.mpr this]
    have hc2 : (cd && decide ((getPlan s'.plan_id).document_upload_limit ≤ s'.documents_uploaded)) = false := by
      cases hcd : cd with
      | false => rfl
      | true =>
        have := hd hcd
        simp [hpq, hdu, not_le.mpr this]
    unfold check_subscription_usage
    simp [hfind', hexp, hc1, hc2]

/-- The concrete subscription obtained by cancelling `sampleSub` at time
1000 with reason "user_request". -/
def cancelledSampleSub : UserSubscription :=
  cancel_fields 1000 (reason_mapping "user_request") none 7
    sampleSub.expiry_date sampleSub

theorem c8_cancellation_witness :
    ([sampleSub].find? (isActiveOf 7) = some sampleSub) ∧
    (sampleSub.is_cancelled = false) ∧
    ((fun _ : Nat => some soloPlan) sampleSub.plan_id = some soloPlan) ∧
    (cancelledSampleSub = cancel_fields 1000 (reason_mapping "user_request")
      none 7 sampleSub.expiry_date sampleSub) ∧
    (¬ sampleSub.expiry_date < 2000) ∧
    ((cancel_subscription (fun _ => some soloPlan) [sampleSub] 7 "user_request"
        none false 1000).2.2 = none ∧
    (cancel_subscription (fun _ => some soloPlan) [sampleSub] 7 "user_request"
        none false 1000).2.1 =
      [{ user_id := 7, cancelled_at := 1000, reason := reason_mapping "user_request",
         user_feedback := none, plan_name := soloPlan.name,
         billing_cycle := sampleSub.billing_cycle.value,
         remaining_days := remaining_days_calc sampleSub.expiry_date 1000,
         access_until := sampleSub.expiry_date, prorated_refund_amount := 0 }] ∧
    ((cancel_subscription (fun _ => some soloPlan) [sampleSub] 7 "user_request"
        none false 1000).1).find? (isActiveOf 7) = some cancelledSampleSub ∧
    cancelledSampleSub.active = true ∧
    cancelledSampleSub.is_cancelled = true ∧
    cancelledSampleSub.auto_renew = false ∧
    cancelledSampleSub.access_ends_at = some sampleSub.expiry_date ∧
    cancelledSampleSub.expiry_date = sampleSub.expiry_date ∧
    (check_subscription_usage (fun _ => soloPlan)
      ((cancel_subscription (fun _ => some soloPlan) [sampleSub] 7 "user_request"
        none false 1000).1) 7 2000 true true).2 = Except.ok cancelledSampleSub) :=
  ⟨rfl, rfl, rfl, rfl, by decide,
    c8_cancellation (fun _ => some soloPlan) (fun _ => soloPlan) [sampleSub]
      7 "user_request" none 1000 2000 true true sampleSub cancelledSampleSub
      soloPlan rfl rfl rfl rfl (by decide) (fun _ => by decide) (fun _ => by decide)⟩

/-- Claim C9: cancel-then-reactivate, attempted while the current time is at
or before the expiry date, succeeds and restores `is_cancelled = false` and
`auto_renew = true`, clears `cancelled_at`, `cancellation_reason` and
`access_ends_at`, and leaves `expiry_date` exactly as before the
cancellation; a reactivation attempted strictly after the expiry date is
rejected and returns the state unchanged. -/
theorem c9_cancel_reactivate_roundtrip (getPlan? : Nat → Option SubscriptionPlan)
    (db : List UserSubscription) (uid : Nat) (reason : String)
    (feedback : Option String) (now t_ok t_late : Int)
    (s s'' : UserSubscription) (plan : SubscriptionPlan)
    (db1 : List UserSubscription)
    (hfind : db.find? (isActiveOf uid) = some s)
    (hnc : s.is_cancelled = false)
    (hplan : getPlan? s.plan_id = some plan)
    (hdb1 : db1 = (cancel_subscription getPlan? db uid reason feedback false now).1)
    (hs'' : s'' = reactivate_fields
      (cancel_fields now (reason_mapping reason) feedback uid s.expiry_date s))
    (htok : ¬ s.expiry_date < t_ok)
    (htlate : s.expiry_date < t_late) :
    (reactivate_subscription db1 uid t_ok).2 = none ∧
    ((reactivate_subscription db1 uid t_ok).1).find? (isActiveOf uid) = some s'' ∧
    s''.is_cancelled = false ∧ s''.auto_renew = true ∧
    s''.cancelled_at = none ∧ s''.cancellation_reason = none ∧
    s''.access_ends_at = none ∧ s''.expiry_date = s.expiry_date ∧
    reactivate_subscription db1 uid t_late = (db1, some .expired) := by
  have hps : isActiveOf uid s = true := List.find?_some hfind
  have hres := cancel_subscription_success getPlan? db uid reason feedback now
    s plan hfind hnc hplan
  have hdb1' : db1 = updateFirst (isActiveOf uid)
      (fun r => cancel_fields now (reason_mapping reason) feedback uid s.expiry_date r) db := by
    rw [hdb1, hres]
  have hqf : isCancelledActiveOf uid
      (cancel_fields now (reason_mapping reason) feedback uid s.expiry_date s) = true := by
    simp only [isActiveOf, Bool.and_eq_true] at hps
    simp [isCancelledActiveOf, cancel_fields, hps.1, hps.2]
  have hfind1 : db1.find? (isCancelledActiveOf uid) =
      some (cancel_fields now (reason_mapping reason) feedback uid s.expiry_date s) := by
    rw [hdb1']
    exact find?_updateFirst_of_imp _ _ _ (isCancelledActiveOf_imp uid) db s hfind hqf
  have hce : (cancel_fields now (reason_mapping reason) feedback uid
      s.expiry_date s).expiry_date = s.expiry_date := rfl
  have hreject : reactivate_subscription db1 uid t_late = (db1, some .expired) := by
    unfold reactivate_subscription
    simp only [hfind1]
    simp [cancel_fields, htlate]
  have hpr : isActiveOf uid (reactivate_fields
      (cancel_fields now (reason_mapping reason) feedback uid s.expiry_date s)) = true := by
    simp only [isActiveOf, Bool.and_eq_true] at hps
    simp [isActiveOf, reactivate_fields, cancel_fields, hps.1, hps.2]
  have hfindp1 : db1.find? (isActiveOf uid) =
      some (cancel_fields now (reason_mapping reason) feedback uid s.expiry_date s) := by
    rw [hdb1']
    refine find?_updateFirst_of_imp _ _ _ (fun x hx => hx) db s hfind ?_
    rw [isActiveOf_cancel_fields]
    exact hps
  have hok : reactivate_subscription db1 uid t_ok =
      (updateFirst (isCancelledActiveOf uid) reactivate_fields db1, none) := by
    unfold reactivate_subscription
    simp only [hfind1]
    simp [cancel_fields, htok]
  refine ⟨by rw [hok], ?_, ?_, ?_, ?_, ?_, ?_, ?_, hreject⟩
  · rw [hok, hs'']
    exact find?_updateFirst_of_sub _ _ _ (isCancelledActiveOf_imp uid) db1 _
      hfindp1 hqf hpr
  · rw [hs'']; simp [reactivate_fields]
  · rw [hs'']; simp [reactivate_fields]
  · rw [hs'']; simp [reactivate_fields]
  · rw [hs'']; simp [reactivate_fields]
  · rw [hs'']; simp [reactivate_fields]
  · rw [hs'']; simp [reactivate_fields, cancel_fields]

/-- The concrete subscription obtained by reactivating
`cancelledSampleSub`. -/
def reactivatedSampleSub : UserSubscription :=
  reactivate_fields cancelledSampleSub

theorem c9_cancel_reactivate_roundtrip_witness :
    ([sampleSub].find? (isActiveOf 7) = some sampleSub) ∧
    (sampleSub.is_cancelled = false) ∧
    ((fun _ : Nat => some soloPlan) sampleSub.plan_id = some soloPlan) ∧
    (¬ sampleSub.expiry_date < 2000) ∧
    (sampleSub.expiry_date < 5000000) ∧
    ((reactivate_subscription
        ((cancel_subscription (fun _ => some soloPlan) [sampleSub] 7
          "user_request" none false 1000).1) 7 2000).2 = none ∧
    ((reactivate_subscription
        ((cancel_subscription (fun _ => some soloPlan) [sampleSub] 7
          "user_request" none false 1000).1) 7 2000).1).find? (isActiveOf 7) =
      some reactivatedSampleSub ∧
    reactivatedSampleSub.is_cancelled = false ∧
    reactivatedSampleSub.auto_renew = true ∧
    reactivatedSampleSub.cancelled_at = none ∧
    reactivatedSampleSub.cancellation_reason = none ∧
    reactivatedSampleSub.access_ends_at = none ∧
    reactivatedSampleSub.expiry_date = sampleSub.expiry_date ∧
    reactivate_subscription
      ((cancel_subscription (fun _ => some soloPlan) [sampleSub] 7
        "user_request" none false 1000).1) 7 5000000 =
      ((cancel_subscription (fun _ => some soloPlan) [sampleSub] 7
        "user_request" none false 1000).1, some .expired)) :=
  ⟨rfl, rfl, rfl, by decide, by decide,
    c9_cancel_reactivate_roundtrip (fun _ => some soloPlan) [sampleSub] 7
      "user_request" none 1000 2000 5000000 sampleSub reactivatedSampleSub
      soloPlan _ rfl rfl rfl rfl rfl (by decide) (by decide)⟩

/-- Claim C10: a cancellation request against a subscription whose
`is_cancelled` flag is already set is rejected with the
already-cancelled error before any mutation: the subscription table is
returned unchanged and no `SubscriptionCancellation` audit row is
appended. -/
theorem c10_double_cancel_rejected (getPlan? : Nat → Option SubscriptionPlan)
    (db : List UserSubscription) (uid : Nat) (reason : String)
    (feedback : Option String) (now : Int) (s : UserSubscription)
    (hfind : db.find? (isActiveOf uid) = some s)
    (hc : s.is_cancelled = true) :
    cancel_subscription getPlan? db uid reason feedback false now =
      (db, [], some CancelError.alreadyCancelled) := by
  unfold cancel_subscription
  rw [hfind]
  simp [hc]

theorem c10_double_cancel_rejected_witness :
    ([cancelledSampleSub].find? (isActiveOf 7) = some cancelledSampleSub) ∧
    (cancelledSampleSub.is_cancelled = true) ∧
    cancel_subscription (fun _ => some soloPlan) [cancelledSampleSub] 7
        "user_request" none false 1500 =
      ([cancelledSampleSub], [], some CancelError.alreadyCancelled) :=
  ⟨rfl, rfl,
    c10_double_cancel_rejected (fun _ => some soloPlan) [cancelledSampleSub]
      7 "user_request" none 1500 cancelledSampleSub rfl rfl⟩

end SPEngineer






